import Mathlib

/-!
Verification of the donation-OCR event app (sindhuth/donation-ocr-app).

The development shallowly embeds the core of the repository: the role
arbiter (`get_roles` / `set_role` / the `user_role` resolution block of
`2agents.py` and `pot.py`), the donation record store (`add_donor_pending`,
`update_donor`, `get_pending_donors`, `get_confirmed_donors`,
`clear_all_donors`, `clear_all_sessions`), the extraction-response parser
of `extract_with_vision_agent`, and the aggregation computations (`total`,
`progress_percentage`).  Python strings are Lean `String`s (or their
character lists), SQLite rows are Lean structures, the donors table is a
Lean list, and money is `Rat` (the Python floats in play are exact small
decimals).

The file is organised as: all definitions first, then all theorems.
-/

namespace DonationApp

/-! ## Definitions: role arbiter -/

/-- The role a session is classified into (`user_role` values
`'admin' / 'editor' / 'donor'` in the source). -/
inductive Role where
  | admin
  | editor
  | donor
deriving DecidableEq, Repr

/-- Which role slot `set_role` writes (`role_type` argument). -/
inductive RoleType where
  | admin
  | editor
deriving DecidableEq, Repr

/-- The single logical row of the `roles` table.  An absent row is
modelled as both fields `none` (`get_roles` returns `(None, None)` when
`fetchone` finds nothing). -/
structure Roles where
  admin_session : Option String
  editor_session : Option String
deriving DecidableEq, Repr

/-- The `roles` state at event start: `init_db` creates the table empty,
so `get_roles` yields `(None, None)`. -/
def rolesInit : Roles := ⟨none, none⟩

/-- `set_role` (2agents.py lines 59-82): a blind write of one field.  The
source UPDATEs the field when the row exists and INSERTs a row with only
that field otherwise; both cases leave the other field as it was (NULL on
insert), i.e. a plain field update on the modelled row. -/
def set_role (role_type : RoleType) (session_id : String) (r : Roles) : Roles :=
  match role_type with
  | .admin => { r with admin_session := some session_id }
  | .editor => { r with editor_session := some session_id }

/-- The role-resolution block of 2agents.py lines 257-272 (identical in
pot.py lines 288-303), as a function of the roles read by `get_roles` and
the caller's session id.  Returns the resolved role together with the
roles state after any `set_role` claim the block performs. -/
def user_role (r : Roles) (sid : String) : Role × Roles :=
  if r.admin_session = none then
    (.admin, set_role .admin sid r)
  else if r.editor_session = none ∧ some sid ≠ r.admin_session then
    (.editor, set_role .editor sid r)
  else if some sid = r.admin_session then
    (.admin, r)
  else if some sid = r.editor_session then
    (.editor, r)
  else
    (.donor, r)

/-- The six-step resolution rule exactly as the spec words it (§4.2 steps
1-6): equality with the admin slot is tested first, then equality with the
editor slot, then the two claim steps, else Uploader (`donor`). -/
def user_role_spec (r : Roles) (sid : String) : Role × Roles :=
  if some sid = r.admin_session then
    (.admin, r)
  else if some sid = r.editor_session then
    (.editor, r)
  else if r.admin_session = none then
    (.admin, { r with admin_session := some sid })
  else if r.editor_session = none then
    (.editor, { r with editor_session := some sid })
  else
    (.donor, r)

/-! ## Definitions: interleaved first-claim attempts

In the source, `get_roles` and `set_role` each take the database lock for
their own single statement, but nothing makes a session's read-then-claim
pair atomic: between one session's `get_roles` and its `set_role`, another
session may run either of its own steps.  The model below executes the
role-resolution block as two atomic events per session (the snapshot read,
then the branch-and-claim step) under an arbitrary schedule. -/

/-- Per-session state in an interleaved execution.  `obs` is the roles
snapshot the session's `get_roles` call returned (`none` before the read);
`role` is the session's local `user_role` result once its claim step has
run. -/
structure Sess where
  sid : String
  obs : Option Roles
  role : Option Role
deriving DecidableEq, Repr

/-- The branch-and-claim step of the role-resolution block: the branch
tests use the session's earlier `get_roles` snapshot `obs`, while the
`set_role` writes (blind writes in the source) apply to the current
database state `db`. -/
def claim_step (obs : Roles) (sid : String) (db : Roles) : Role × Roles :=
  if obs.admin_session = none then
    (.admin, set_role .admin sid db)
  else if obs.editor_session = none ∧ some sid ≠ obs.admin_session then
    (.editor, set_role .editor sid db)
  else if some sid = obs.admin_session then
    (.admin, db)
  else if some sid = obs.editor_session then
    (.editor, db)
  else
    (.donor, db)

/-- An atomic event of an interleaved execution: session `i` performs its
`get_roles` read, or session `i` performs its branch-and-claim step. -/
inductive Ev where
  | read (i : Nat)
  | claim (i : Nat)

/-- One scheduler step over the shared roles row and the session list. -/
def stepEv (g : Roles × List Sess) (e : Ev) : Roles × List Sess :=
  match e with
  | .read i =>
    match g.2[i]? with
    | some s => (g.1, g.2.set i { s with obs := some g.1 })
    | none => g
  | .claim i =>
    match g.2[i]? with
    | some s =>
      match s.obs with
      | some obs =>
        let rd := claim_step obs s.sid g.1
        (rd.2, g.2.set i { s with role := some rd.1 })
      | none => g
    | none => g

/-- Run a schedule of events from an initial shared state. -/
def run_sched (g : Roles × List Sess) (evs : List Ev) : Roles × List Sess :=
  evs.foldl stepEv g

/-! ## Definitions: extraction-response parser

`extract_with_vision_agent` (2agents.py lines 175-213) parses the
free-form model response.  The string helpers mirror the Python methods
used there (`str.strip`, `str.lower`, `str.split('\n')`,
`str.split(':', 1)`, substring `in`, `filter(str.isdigit or '.')`). -/

/-- Python `str.strip()` whitespace set. -/
def pyIsSpace (c : Char) : Bool :=
  c = ' ' || c = '\t' || c = '\n' || c = '\r' || c = '\x0b' || c = '\x0c'

/-- Python `str.strip()` on a character list. -/
def pyStrip (l : List Char) : List Char :=
  ((l.dropWhile pyIsSpace).reverse.dropWhile pyIsSpace).reverse

/-- Python `str.lower()` (the texts in play are ASCII). -/
def pyLower (l : List Char) : List Char :=
  l.map Char.toLower

/-- Python `s.split(sep)` with an explicit one-character separator:
splits on every occurrence, keeping empty pieces. -/
def splitSep (sep : Char) : List Char → List (List Char)
  | [] => [[]]
  | c :: t =>
    if c = sep then [] :: splitSep sep t
    else
      match splitSep sep t with
      | [] => [[c]]
      | h :: r => (c :: h) :: r

/-- Python `line.split(':', 1)`: the part before the first colon and the
part after it (the whole line and `[]` when there is no colon). -/
def splitFirstColon : List Char → List Char × List Char
  | [] => ([], [])
  | c :: t =>
    if c = ':' then ([], t)
    else
      let kv := splitFirstColon t
      (c :: kv.1, kv.2)

/-- Python `pat in s` substring test. -/
def containsSub (pat : List Char) : List Char → Bool
  | [] => pat.isEmpty
  | c :: t => pat.isPrefixOf (c :: t) || containsSub pat t

/-- The character filter the parser applies to amount values:
`x.isdigit() or x == '.'`. -/
def dotDigit (c : Char) : Bool :=
  c.isDigit || c = '.'

/-- The parser's output dictionary `{'name': ..., 'amount': ...}`. -/
structure Extracted where
  name : String
  amount : String
deriving DecidableEq, Repr

/-- `key.strip().lower()` for a raw line. -/
def line_key (line : List Char) : List Char :=
  pyLower (pyStrip (splitFirstColon line).1)

/-- `value.strip()` for a raw line. -/
def line_value (line : List Char) : List Char :=
  pyStrip (splitFirstColon line).2

/-- The per-line body of the parser loop in `extract_with_vision_agent`
(2agents.py lines 198-208): lines without a colon are skipped; a key
containing "name" stores the trimmed value as the name; otherwise a key
containing "amount" stores the digit-and-dot filtered value as the
amount. -/
def parse_line (d : Extracted) (line : List Char) : Extracted :=
  if line.contains ':' then
    if containsSub "name".toList (line_key line) then
      { d with name := ⟨line_value line⟩ }
    else if containsSub "amount".toList (line_key line) then
      { d with amount := ⟨(line_value line).filter dotDigit⟩ }
    else d
  else d

/-- `extract_with_vision_agent`'s response parsing (2agents.py lines
195-210): start from `{'name': '', 'amount': ''}` and fold the per-line
body over `content.split('\n')`. -/
def extract_with_vision_agent (content : String) : Extracted :=
  (splitSep '\n' content.toList).foldl parse_line ⟨"", ""⟩

/-- A line whose key matches the amount field (colon present, key does not
contain "name", key contains "amount"). -/
def amount_line (line : List Char) : Bool :=
  line.contains ':' && !containsSub "name".toList (line_key line) &&
    containsSub "amount".toList (line_key line)

/-- The amount value the parser derives from a matching line. -/
def amount_of_line (line : List Char) : String :=
  ⟨(line_value line).filter dotDigit⟩

/-- A line whose key matches the name field (colon present, key contains
"name"). -/
def name_line (line : List Char) : Bool :=
  line.contains ':' && containsSub "name".toList (line_key line)

/-- The name value the parser derives from a matching line. -/
def name_of_line (line : List Char) : String :=
  ⟨line_value line⟩

/-! ## Definitions: donation record store -/

/-- `status` column values. -/
inductive Status where
  | pending
  | confirmed
deriving DecidableEq, Repr

/-- A row of the `donors` table.  The image blob is opaque byte data; the
timestamp is the insertion-time value of the database clock. -/
structure Donor where
  id : Nat
  full_name : String
  amount : String
  image_data : List Nat
  status : Status
  timestamp : Nat
deriving DecidableEq, Repr

/-- The database: the `donors` table together with its AUTOINCREMENT
counter and a logical clock standing in for `CURRENT_TIMESTAMP`, plus the
single-row `roles` table. -/
structure DB where
  donors : List Donor
  next_id : Nat
  now : Nat
  roles : Roles
deriving DecidableEq, Repr

/-- The state `init_db` leaves a fresh database in: both tables empty
(SQLite AUTOINCREMENT ids start at 1). -/
def dbInit : DB := ⟨[], 1, 0, rolesInit⟩

/-- `add_donor_pending` (2agents.py lines 84-96): INSERT a row with the
extracted name and amount, the image bytes and status `'pending'`,
returning the fresh row id (`lastrowid`). -/
def add_donor_pending (db : DB) (image_bytes : List Nat) (extracted : Extracted) :
    DB × Nat :=
  ({ db with
      donors := db.donors ++
        [⟨db.next_id, extracted.name, extracted.amount, image_bytes, .pending, db.now⟩],
      next_id := db.next_id + 1,
      now := db.now + 1 },
    db.next_id)

/-- `update_donor` (2agents.py lines 108-119): UPDATE name, amount and
status to `'confirmed'` on every row whose id matches.  An id matching no
row is a successful no-op: SQL UPDATE raises nothing when zero rows
match, and the source has no error path here. -/
def update_donor (db : DB) (donor_id : Nat) (name amount : String) : DB :=
  { db with
      donors := db.donors.map fun d =>
        if d.id = donor_id then
          { d with full_name := name, amount := amount, status := .confirmed }
        else d }

/-- Insertion into a list sorted by the Boolean order `le`. -/
def insertSorted (le : Donor → Donor → Bool) (d : Donor) : List Donor → List Donor
  | [] => [d]
  | x :: t => if le d x then d :: x :: t else x :: insertSorted le d t

/-- Insertion sort by the Boolean order `le` (the `ORDER BY` of the two
SELECT queries). -/
def sortDonors (le : Donor → Donor → Bool) : List Donor → List Donor
  | [] => []
  | x :: t => insertSorted le x (sortDonors le t)

/-- `get_pending_donors` (2agents.py lines 98-106): the `'pending'` rows,
`ORDER BY timestamp ASC`. -/
def get_pending_donors (db : DB) : List Donor :=
  sortDonors (fun a b => Nat.ble a.timestamp b.timestamp)
    (db.donors.filter fun d => d.status == Status.pending)

/-- `get_confirmed_donors` (2agents.py lines 121-129): the `'confirmed'`
rows, `ORDER BY timestamp DESC`. -/
def get_confirmed_donors (db : DB) : List Donor :=
  sortDonors (fun a b => Nat.ble b.timestamp a.timestamp)
    (db.donors.filter fun d => d.status == Status.confirmed)

/-- `clear_all_donors` (2agents.py lines 131-138): `DELETE FROM donors`;
the roles row is untouched. -/
def clear_all_donors (db : DB) : DB :=
  { db with donors := [] }

/-- `clear_all_sessions` (login.py lines 88-95): `DELETE FROM roles`; the
donors table is untouched.  With the row deleted, `get_roles` again
returns `(None, None)`. -/
def clear_all_sessions (db : DB) : DB :=
  { db with roles := rolesInit }

/-- `set_role` acting on the whole database. -/
def set_role_db (role_type : RoleType) (session_id : String) (db : DB) : DB :=
  { db with roles := set_role role_type session_id db.roles }

/-- The database effect of login.py's admin-login handler (lines 354-360):
on a correct password it runs `clear_all_sessions()` and then
`set_role('admin', session_id)` — it clears both role slots without
deleting any donor row, then re-claims the admin slot. -/
def admin_login (session_id : String) (db : DB) : DB :=
  set_role_db .admin session_id (clear_all_sessions db)

/-! ## Definitions: aggregation -/

/-- Decimal digits to the natural number they denote. -/
def digitsVal (l : List Char) : Nat :=
  l.foldl (fun a c => a * 10 + (c.toNat - '0'.toNat)) 0

/-- Python `float()` on a plain decimal literal, reported as a signed
mantissa and a count of decimal places (value = mantissa / 10^places):
optional surrounding whitespace, an optional sign, then digits with at
most one decimal point and at least one digit overall.  Scientific
notation, infinities, nan and digit underscores — which the amount
strings in play never use — are outside the modelled fragment and report
failure. -/
def pyParseDec? (s : String) : Option (Int × Nat) :=
  let l := pyStrip s.toList
  let signRest : Int × List Char :=
    match l with
    | '+' :: t => (1, t)
    | '-' :: t => (-1, t)
    | t => (1, t)
  let ip := signRest.2.takeWhile Char.isDigit
  let rest := signRest.2.dropWhile Char.isDigit
  match rest with
  | [] => if ip.isEmpty then none else some (signRest.1 * digitsVal ip, 0)
  | '.' :: frac =>
    if frac.all Char.isDigit ∧ ¬(ip.isEmpty ∧ frac.isEmpty) then
      some (signRest.1 * ((digitsVal ip) * 10 ^ frac.length + digitsVal frac),
        frac.length)
    else none
  | _ => none

/-- The rational value of a parsed decimal. -/
def decValue (p : Int × Nat) : Rat :=
  (p.1 : Rat) / (10 : Rat) ^ p.2

/-- Python `float()` into the rationals. -/
def pyFloat? (s : String) : Option Rat :=
  (pyParseDec? s).map decValue

/-- The dashboard total (2agents.py lines 295-302): iterate the rows,
adding `float(amount)` when the amount string is nonempty and parses —
the `except: pass` skips a row whose `float()` raises — and adding 0 when
the amount string is empty. -/
def total (donors : List Donor) : Rat :=
  donors.foldl
    (fun acc d =>
      if d.amount = "" then acc
      else
        match pyFloat? d.amount with
        | some v => acc + v
        | none => acc)
    0

/-- The claim's reading of `totalRaised()`: a record whose amount parses
to a non-negative number contributes that number, anything else (parse
failure or a negative value) contributes 0. -/
def totalSpec_nonneg (donors : List Donor) : Rat :=
  (donors.map fun d =>
    match pyFloat? d.amount with
    | some v => if 0 ≤ v then v else 0
    | none => 0).sum

/-- The amended reading of `totalRaised()`: a parse failure contributes 0
and a parsed value contributes itself, negative or not. -/
def totalSpec (donors : List Donor) : Rat :=
  (donors.map fun d => (pyFloat? d.amount).getD 0).sum

/-- The fixed fundraising goal (`GOAL = 2000.0`, 2agents.py line 289). -/
def GOAL : Rat := 2000

/-- `progress_percentage = min((total / GOAL) * 100, 100)` (2agents.py
line 305), with the goal abstracted as a parameter so the claim's
`progress(goal)` can be stated; the source always instantiates it with
the constant `GOAL`. -/
def progress_percentage (goal t : Rat) : Rat :=
  min (t / goal * 100) 100

/-- The fraction handed to the progress bar:
`st.progress(progress_percentage / 100)` (2agents.py line 307). -/
def progress_fraction (goal t : Rat) : Rat :=
  progress_percentage goal t / 100

/-! ## Theorems -/

/-- C1 counterexample: on the state where the admin slot is unset but the
editor slot holds the caller's own session id, the code resolves Admin
(the `admin_session is None` branch runs first and claims the slot), while
the spec's six-step rule resolves Editor at step 3.  The claim quantifies
over every role-assignment state, so this state refutes it. -/
theorem c1_role_rule_counterexample :
    user_role ⟨none, some "s"⟩ "s" = (.admin, ⟨some "s", some "s"⟩) ∧
    user_role_spec ⟨none, some "s"⟩ "s" = (.editor, ⟨none, some "s"⟩) ∧
    user_role ⟨none, some "s"⟩ "s" ≠ user_role_spec ⟨none, some "s"⟩ "s" := by
  refine ⟨rfl, ?_, ?_⟩ <;> simp [user_role, user_role_spec, set_role]

/-- C1 amended: on every state in which the editor slot is set only if the
admin slot is set (which includes every state the program can reach: the
code claims the editor slot only after seeing a non-NULL admin slot), the
code's resolution block agrees with the spec's six-step rule, in both the
resolved role and the slot-claiming writes; no other outcome is
possible. -/
theorem c1_role_rule_amended (r : Roles) (sid : String)
    (h : r.editor_session.isSome → r.admin_session.isSome) :
    user_role r sid = user_role_spec r sid := by
  obtain ⟨a, e⟩ := r
  cases a with
  | none =>
    cases e with
    | none => simp [user_role, user_role_spec, set_role]
    | some e' => simp at h
  | some a' =>
    cases e with
    | none =>
      by_cases hsa : sid = a' <;>
        simp [user_role, user_role_spec, set_role, hsa]
    | some e' =>
      by_cases hsa : sid = a' <;> by_cases hse : sid = e' <;>
        simp [user_role, user_role_spec, set_role, hsa, hse]

/-- C1 witness: the amended theorem applied at the empty initial state and
session `"s0"`, where both sides claim the admin slot. -/
theorem c1_role_rule_amended_witness :
    user_role rolesInit "s0" = user_role_spec rolesInit "s0" :=
  c1_role_rule_amended rolesInit "s0" (by simp [rolesInit])

/-- Running the whole resolution block without interleaving is exactly
`user_role` (the claim step applied to its own fresh snapshot). -/
theorem claim_step_self (r : Roles) (sid : String) :
    claim_step r sid r = user_role r sid := rfl

/-- C2: the race the blind-write claim admits.  Two distinct sessions "A"
and "B" start from the empty roles row; both read before either claims.
Both then see an unset admin slot, so both resolve Admin: "B"'s blind
`set_role` overwrites "A"'s, and "A" finishes believing it is Admin while
not holding the slot.  This contradicts the claim that under any
interleaving at most one session ever holds Admin (exactly one Admin, one
Editor, the rest Uploader). -/
theorem c2_role_exclusivity_race :
    run_sched (rolesInit, [⟨"A", none, none⟩, ⟨"B", none, none⟩])
        [.read 0, .read 1, .claim 0, .claim 1] =
      (⟨some "B", none⟩,
        [⟨"A", some rolesInit, some .admin⟩, ⟨"B", some rolesInit, some .admin⟩]) ∧
    "A" ≠ "B" := by
  exact ⟨rfl, by decide⟩

/-- Filtering with `dotDigit` leaves only characters satisfying it. -/
theorem filter_dotDigit_all (l : List Char) :
    (l.filter dotDigit).all dotDigit = true := by
  simp [List.all_eq_true, List.mem_filter]

/-- The per-line parser body only ever writes digit-and-dot strings into
the amount field. -/
theorem parse_line_amount_inv (d : Extracted) (line : List Char)
    (h : d.amount.toList.all dotDigit = true) :
    (parse_line d line).amount.toList.all dotDigit = true := by
  unfold parse_line
  split_ifs with h1 h2 h3
  · exact h
  · exact filter_dotDigit_all (line_value line)
  · exact h
  · exact h

/-- The digit-and-dot invariant of the amount field survives the whole
parse loop. -/
theorem foldl_parse_line_amount_inv (lines : List (List Char)) (d : Extracted)
    (h : d.amount.toList.all dotDigit = true) :
    ((lines.foldl parse_line d).amount.toList.all dotDigit) = true := by
  induction lines generalizing d with
  | nil => exact h
  | cons x t ih => exact ih (parse_line d x) (parse_line_amount_inv d x h)

/-- C3 counterexample: the parser's amount normalization keeps every
decimal point, not at most one — `filter(lambda x: x.isdigit() or
x == '.')` has no one-dot rule.  On `"Amount: 1.2.3"` the parsed amount is
`"1.2.3"`, which contains two decimal points, refuting the claim that
amount values are normalized to at most one decimal point. -/
theorem c3_parsing_counterexample :
    (extract_with_vision_agent "Amount: 1.2.3").amount = "1.2.3" ∧
    "1.2.3".toList.count '.' = 2 := by
  decide

/-- C3 amended: the ingestion parser splits each line at its first colon,
trims whitespace, matches keys case-insensitively for a substring "name"
or "amount" (all encoded in `parse_line`); a line with no colon leaves the
parse state unchanged; amount values are normalized to digit and
decimal-point characters only (every decimal point is kept, not just one);
and the input `"Name: Jane Doe\nAmount: $1,234.50 USD\n"` yields name
`"Jane Doe"` and amount `"1234.50"`. -/
theorem c3_parsing_amended :
    (∀ (d : Extracted) (line : List Char),
      line.contains ':' = false → parse_line d line = d) ∧
    (∀ content : String,
      (extract_with_vision_agent content).amount.toList.all dotDigit = true) ∧
    extract_with_vision_agent "Name: Jane Doe\nAmount: $1,234.50 USD\n" =
      ⟨"Jane Doe", "1234.50"⟩ := by
  refine ⟨?_, ?_, by decide⟩
  · intro d line h
    unfold parse_line
    rw [h]
    simp
  · intro content
    exact foldl_parse_line_amount_inv _ ⟨"", ""⟩ (by decide)

/-- C3 witness: the amended theorem's colon-free clause applied to a
concrete line. -/
theorem c3_parsing_amended_witness :
    parse_line ⟨"n0", "a0"⟩ "a line with no separator".toList = ⟨"n0", "a0"⟩ :=
  c3_parsing_amended.1 ⟨"n0", "a0"⟩ "a line with no separator".toList (by decide)

/-- A line matching the amount field overwrites the amount with the value
derived from that line. -/
theorem parse_line_amount_of (d : Extracted) (line : List Char)
    (h : amount_line line = true) :
    (parse_line d line).amount = amount_of_line line := by
  unfold amount_line at h
  simp only [Bool.and_eq_true, Bool.not_eq_true'] at h
  obtain ⟨⟨h1, h2⟩, h3⟩ := h
  unfold parse_line
  rw [if_pos h1, if_neg (by rw [h2]; simp), if_pos h3]
  rfl

/-- A line not matching the amount field leaves the amount unchanged. -/
theorem parse_line_amount_keep (d : Extracted) (line : List Char)
    (h : amount_line line = false) :
    (parse_line d line).amount = d.amount := by
  unfold amount_line at h
  unfold parse_line
  split_ifs with h1 h2 h3
  · rfl
  · exfalso
    simp only [Bool.not_eq_true] at h2
    rw [h1, h2, h3] at h
    simp at h
  · rfl
  · rfl

/-- A line matching the name field overwrites the name with the trimmed
value of that line. -/
theorem parse_line_name_of (d : Extracted) (line : List Char)
    (h : name_line line = true) :
    (parse_line d line).name = name_of_line line := by
  unfold name_line at h
  simp only [Bool.and_eq_true] at h
  obtain ⟨h1, h2⟩ := h
  unfold parse_line
  rw [if_pos h1, if_pos h2]
  rfl

/-- A line not matching the name field leaves the name unchanged. -/
theorem parse_line_name_keep (d : Extracted) (line : List Char)
    (h : name_line line = false) :
    (parse_line d line).name = d.name := by
  unfold name_line at h
  unfold parse_line
  split_ifs with h1 h2 h3
  · exfalso
    rw [h1, h2] at h
    simp at h
  · rfl
  · rfl
  · rfl

/-- Folding over lines none of which match the amount field preserves the
amount. -/
theorem foldl_amount_keep (ys : List (List Char)) (d : Extracted)
    (h : ∀ y ∈ ys, amount_line y = false) :
    (ys.foldl parse_line d).amount = d.amount := by
  induction ys generalizing d with
  | nil => rfl
  | cons x t ih =>
    rw [List.foldl_cons, ih (parse_line d x) (fun y hy => h y (by simp [hy])),
      parse_line_amount_keep d x (h x (by simp))]

/-- Folding over lines none of which match the name field preserves the
name. -/
theorem foldl_name_keep (ys : List (List Char)) (d : Extracted)
    (h : ∀ y ∈ ys, name_line y = false) :
    (ys.foldl parse_line d).name = d.name := by
  induction ys generalizing d with
  | nil => rfl
  | cons x t ih =>
    rw [List.foldl_cons, ih (parse_line d x) (fun y hy => h y (by simp [hy])),
      parse_line_name_keep d x (h x (by simp))]

/-- C10: when several lines have a key matching the same field, the parsed
result for that field is the value derived from the last such line: in a
line list `xs ++ l :: ys` where `l` matches the field and nothing in `ys`
does, the fold that implements the parser ends with exactly `l`'s value,
whatever earlier matching lines in `xs` stored. -/
theorem c10_last_match_wins (d : Extracted) (xs ys : List (List Char))
    (l : List Char) :
    (amount_line l = true → (∀ y ∈ ys, amount_line y = false) →
      ((xs ++ l :: ys).foldl parse_line d).amount = amount_of_line l) ∧
    (name_line l = true → (∀ y ∈ ys, name_line y = false) →
      ((xs ++ l :: ys).foldl parse_line d).name = name_of_line l) := by
  constructor
  · intro hl hys
    rw [List.foldl_append, List.foldl_cons, foldl_amount_keep ys _ hys,
      parse_line_amount_of _ l hl]
  · intro hl hys
    rw [List.foldl_append, List.foldl_cons, foldl_name_keep ys _ hys,
      parse_line_name_of _ l hl]

/-- C10 witness: two amount lines — the second one's value wins; likewise
for two name lines. -/
theorem c10_last_match_wins_witness :
    ((["Amount: 1".toList] ++ "Amount: 2".toList :: []).foldl parse_line
        ⟨"", ""⟩).amount = amount_of_line "Amount: 2".toList ∧
    ((["Name: X".toList] ++ "Name: Y".toList :: []).foldl parse_line
        ⟨"", ""⟩).name = name_of_line "Name: Y".toList ∧
    amount_of_line "Amount: 2".toList = "2" ∧
    name_of_line "Name: Y".toList = "Y" :=
  ⟨(c10_last_match_wins ⟨"", ""⟩ ["Amount: 1".toList] []
      "Amount: 2".toList).1 (by decide) (by simp),
   (c10_last_match_wins ⟨"", ""⟩ ["Name: X".toList] []
      "Name: Y".toList).2 (by decide) (by simp),
   by decide, by decide⟩

/-- The loop body of `total` adds exactly the parsed-or-zero value of the
row's amount: an empty amount adds 0, a parse failure is skipped by the
`except: pass` (also adding 0), a parsed value is added. -/
theorem total_step (acc : Rat) (d : Donor) :
    (if d.amount = "" then acc
     else
       match pyFloat? d.amount with
       | some v => acc + v
       | none => acc) = acc + (pyFloat? d.amount).getD 0 := by
  split_ifs with h
  · have hnone : pyFloat? d.amount = none := by rw [h]; decide
    rw [hnone]
    simp
  · cases hp : pyFloat? d.amount with
    | none => simp [hp]
    | some v => simp [hp]

/-- Generalized-accumulator form of `total = totalSpec`. -/
theorem total_foldl (l : List Donor) (acc : Rat) :
    l.foldl
        (fun acc d =>
          if d.amount = "" then acc
          else
            match pyFloat? d.amount with
            | some v => acc + v
            | none => acc)
        acc = acc + totalSpec l := by
  induction l generalizing acc with
  | nil => simp [totalSpec]
  | cons d t ih =>
    rw [List.foldl_cons, ih, total_step acc d]
    unfold totalSpec
    rw [List.map_cons, List.sum_cons]
    ring

/-- C4 counterexample: a confirmed record with amount `"-5"`.  Python
`float("-5")` succeeds, so the dashboard total adds −5; the claim says an
amount that does not parse as a *non-negative* number contributes 0, so
its sum is 0.  The two disagree. -/
theorem c4_total_counterexample :
    total [⟨1, "N", "-5", [], .confirmed, 0⟩] = -5 ∧
    totalSpec_nonneg [⟨1, "N", "-5", [], .confirmed, 0⟩] = 0 ∧
    total [⟨1, "N", "-5", [], .confirmed, 0⟩] ≠
      totalSpec_nonneg [⟨1, "N", "-5", [], .confirmed, 0⟩] := by
  have h : pyParseDec? "-5" = some (-5, 0) := by decide
  have hne : ¬("-5" : String) = "" := by decide
  refine ⟨?_, ?_, ?_⟩ <;>
    norm_num [total, totalSpec_nonneg, pyFloat?, decValue, h, hne]

/-- C4 amended: `total` equals the sum over the records of the numeric
value of the amount string, where an amount that does not parse as a
number contributes 0 and a parsed value — negative included — contributes
itself; confirmed amounts "10", "abc", "5.50" total 15.50. -/
theorem c4_total_amended :
    (∀ donors : List Donor, total donors = totalSpec donors) ∧
    total [⟨1, "A", "10", [], .confirmed, 0⟩, ⟨2, "B", "abc", [], .confirmed, 1⟩,
      ⟨3, "C", "5.50", [], .confirmed, 2⟩] = 31 / 2 := by
  constructor
  · intro donors
    unfold total
    rw [total_foldl]
    ring
  · have h1 : pyParseDec? "10" = some (10, 0) := by decide
    have h2 : pyParseDec? "abc" = none := by decide
    have h3 : pyParseDec? "5.50" = some (550, 2) := by decide
    have hne1 : ¬("10" : String) = "" := by decide
    have hne2 : ¬("abc" : String) = "" := by decide
    have hne3 : ¬("5.50" : String) = "" := by decide
    norm_num [total, pyFloat?, decValue, h1, h2, h3, hne1, hne2, hne3]

/-- C5 counterexample: `confirm` on an id that matches no row completes
normally — it returns the store unchanged instead of failing.  The
embedded `update_donor` is a total function because the source has no
error path: a SQL UPDATE matching zero rows raises nothing, so no
`NotFound` failure exists in the code. -/
theorem c5_confirm_missing_counterexample :
    update_donor dbInit 1 "Jane" "10" = dbInit := by
  decide

/-- A map that touches no element of a list leaves it unchanged. -/
theorem map_update_id (donor_id : Nat) (name amount : String) :
    ∀ l : List Donor, (∀ d ∈ l, d.id ≠ donor_id) →
      (l.map fun d =>
        if d.id = donor_id then
          { d with full_name := name, amount := amount, status := Status.confirmed }
        else d) = l := by
  intro l hl
  induction l with
  | nil => rfl
  | cons x t ih =>
    rw [List.map_cons, if_neg (hl x (List.mem_cons_self x t)),
      ih fun d hd => hl d (List.mem_cons_of_mem x hd)]

/-- C5 amended: when no record with the given id exists, `confirm`
(`update_donor`) raises no error and leaves the store unchanged — a
silent no-op rather than a `NotFound` failure. -/
theorem c5_confirm_missing_amended (db : DB) (donor_id : Nat)
    (name amount : String) (h : ∀ d ∈ db.donors, d.id ≠ donor_id) :
    update_donor db donor_id name amount = db := by
  unfold update_donor
  rw [map_update_id donor_id name amount db.donors h]

/-- C5 witness: a store holding only record 1, confirmed under id 2. -/
theorem c5_confirm_missing_amended_witness :
    update_donor ⟨[⟨1, "A", "5", [], .pending, 0⟩], 2, 1, rolesInit⟩ 2 "X" "9" =
      ⟨[⟨1, "A", "5", [], .pending, 0⟩], 2, 1, rolesInit⟩ :=
  c5_confirm_missing_amended _ 2 "X" "9" (by decide)

/-- C6: for every existing record id, confirming twice (with possibly
different values) raises no error on the second call — `update_donor` is
total — and leaves every record with that id carrying the second call's
name and amount and status Confirmed: last write wins. -/
theorem c6_confirm_idempotent (db : DB) (donor_id : Nat)
    (n1 a1 n2 a2 : String) (h : ∃ d ∈ db.donors, d.id = donor_id) :
    (∃ d ∈ (update_donor (update_donor db donor_id n1 a1) donor_id n2 a2).donors,
      d.id = donor_id) ∧
    ∀ d ∈ (update_donor (update_donor db donor_id n1 a1) donor_id n2 a2).donors,
      d.id = donor_id →
        d.full_name = n2 ∧ d.amount = a2 ∧ d.status = .confirmed := by
  constructor
  · obtain ⟨d, hd, hid⟩ := h
    unfold update_donor
    simp only [List.map_map]
    refine ⟨_, List.mem_map_of_mem _ hd, ?_⟩
    simp [Function.comp, hid]
  · intro d' hmem hid'
    unfold update_donor at hmem
    simp only [List.map_map, List.mem_map, Function.comp] at hmem
    obtain ⟨x, hx, rfl⟩ := hmem
    by_cases hxid : x.id = donor_id
    · simp [hxid]
    · exfalso
      rw [if_neg hxid, if_neg hxid] at hid'
      exact hxid hid'

/-- C6 witness: record 1 confirmed as ("N1","7") then ("N2","8") ends as
("N2","8"), Confirmed. -/
theorem c6_confirm_idempotent_witness :
    (∃ d ∈ (update_donor (update_donor
        ⟨[⟨1, "A", "5", [], .pending, 0⟩], 2, 1, rolesInit⟩ 1 "N1" "7")
        1 "N2" "8").donors, d.id = 1) ∧
    ∀ d ∈ (update_donor (update_donor
        ⟨[⟨1, "A", "5", [], .pending, 0⟩], 2, 1, rolesInit⟩ 1 "N1" "7")
        1 "N2" "8").donors,
      d.id = 1 → d.full_name = "N2" ∧ d.amount = "8" ∧ d.status = .confirmed :=
  c6_confirm_idempotent ⟨[⟨1, "A", "5", [], .pending, 0⟩], 2, 1, rolesInit⟩ 1
    "N1" "7" "N2" "8" ⟨⟨1, "A", "5", [], .pending, 0⟩, by decide, rfl⟩

/-- C7 counterexample: there is no `InvalidGoal` failure in the code —
the goal is the constant `GOAL = 2000.0` and the progress formula is
evaluated unconditionally.  Instantiating the formula at the non-positive
goal −1 (total 150) silently yields the fraction −150 instead of
failing. -/
theorem c7_progress_counterexample :
    progress_fraction (-1) 150 = -150 ∧ (-1 : Rat) ≤ 0 := by
  constructor
  · unfold progress_fraction progress_percentage
    rw [min_eq_left (by norm_num)]
    norm_num
  · norm_num

/-- C7 amended: for every nonzero goal the displayed progress fraction
`min((total / goal) * 100, 100) / 100` equals `min(total / goal, 1)`; the
source always uses `goal = GOAL = 2000 > 0`.  No failure is raised for a
non-positive goal ( the formula silently evaluates), and a zero goal
would be a Python `ZeroDivisionError`, not an `InvalidGoal` report, so the
zero case is excluded. -/
theorem c7_progress_amended (goal t : Rat) (_hg : goal ≠ 0) :
    progress_fraction goal t = min (t / goal) 1 := by
  unfold progress_fraction progress_percentage
  rcases le_total (t / goal * 100) 100 with hle | hle
  · rw [min_eq_left hle, min_eq_left (by linarith)]
    ring
  · rw [min_eq_right hle, min_eq_right (by linarith)]
    norm_num

/-- C7 witness: goal 100 over total 150 gives the capped fraction 1. -/
theorem c7_progress_amended_witness :
    progress_fraction 100 150 = min ((150 : Rat) / 100) 1 ∧
    min ((150 : Rat) / 100) 1 = 1 :=
  ⟨c7_progress_amended 100 150 (by norm_num),
   by rw [min_eq_right (by norm_num)]⟩

/-- C8 counterexample: `clear_all_sessions` (login.py lines 88-95, invoked
standalone by the admin-login handler at line 356) clears both role slots
while leaving the donors table — here non-empty — untouched.  Roles are
therefore cleared outside any reset that also deletes the
DonationRecords, refuting the claimed lifecycle. -/
theorem c8_roles_lifecycle_counterexample :
    (clear_all_sessions
        ⟨[⟨1, "A", "5", [], .confirmed, 0⟩], 2, 1, ⟨some "sa", some "se"⟩⟩).roles
      = rolesInit ∧
    (clear_all_sessions
        ⟨[⟨1, "A", "5", [], .confirmed, 0⟩], 2, 1, ⟨some "sa", some "se"⟩⟩).donors
      = [⟨1, "A", "5", [], .confirmed, 0⟩] ∧
    ([⟨1, "A", "5", [], .confirmed, 0⟩] : List Donor) ≠ [] := by
  refine ⟨rfl, rfl, by decide⟩

/-- C8 amended: the two role slots start unset, and the only clearing
operation (`clear_all_sessions`) clears both together — but it deletes no
DonationRecord, and login's admin login runs it standalone and then
re-claims the admin slot with the records intact, so a slot can be
written more than once per event lifetime and roles can be cleared
without clearing the records. -/
theorem c8_roles_lifecycle_amended (db : DB) (sid : String) :
    dbInit.roles = rolesInit ∧
    (clear_all_sessions db).roles = rolesInit ∧
    (clear_all_sessions db).donors = db.donors ∧
    (admin_login sid db).roles = ⟨some sid, none⟩ ∧
    (admin_login sid db).donors = db.donors :=
  ⟨rfl, rfl, rfl, rfl, rfl⟩

/-- C9: `clear_all_donors` deletes every donor row — both the pending and
the confirmed listings are empty afterwards — and leaves the roles row
unchanged; and roles are emptied only by the separate
`clear_all_sessions`: `set_role` never empties them, and the donor-table
operations leave them untouched, while `clear_all_sessions` empties the
roles and touches no donor row. -/
theorem c9_clear_all_frame (db : DB) (rt : RoleType) (sid : String)
    (donor_id : Nat) (name amount : String) (img : List Nat) (e : Extracted) :
    get_pending_donors (clear_all_donors db) = [] ∧
    get_confirmed_donors (clear_all_donors db) = [] ∧
    (clear_all_donors db).roles = db.roles ∧
    (set_role_db rt sid db).roles ≠ rolesInit ∧
    (update_donor db donor_id name amount).roles = db.roles ∧
    ((add_donor_pending db img e).1).roles = db.roles ∧
    (clear_all_sessions db).roles = rolesInit ∧
    (clear_all_sessions db).donors = db.donors := by
  refine ⟨rfl, rfl, rfl, ?_, rfl, rfl, rfl, rfl⟩
  cases rt <;> simp [set_role_db, set_role, rolesInit]

end DonationApp

